import Mathlib

/-
Verification development for the MultiDocsRagSystem repository.

Each Python source file is shallowly embedded into Lean:
* Python strings are modelled as `List Char` (written `"...".data`), so that
  all string operations reduce in the kernel;
* Python dictionaries are association lists whose order is the insertion
  order of the source code;
* JSON-like heterogeneous values are the inductive `JVal`;
* network endpoints, the LLM chat API and the SQL engine are function
  parameters ("oracles"), so that theorems quantifying over them express
  independence from the external world;
* Python exceptions are `Except` errors; a local variable that may be read
  before assignment is an `Option` read through `localRead`, which raises
  `UnboundLocalError` exactly as CPython does.
-/

namespace MultiDocsRag

/-- Python strings are modelled as lists of characters. -/
abbrev PyStr := List Char

/-- Python substring containment `pat in hay` (`str.__contains__`). -/
def listContainsSub (pat : PyStr) : PyStr → Bool
  | [] => pat.isEmpty
  | c :: rest => pat.isPrefixOf (c :: rest) || listContainsSub pat rest

/-- Python `hay.find(pat)`: index of the leftmost occurrence (`none` for -1). -/
def listFindSub (pat : PyStr) : PyStr → Option Nat
  | [] => if pat.isEmpty then some 0 else none
  | c :: rest =>
    if pat.isPrefixOf (c :: rest) then some 0
    else (listFindSub pat rest).map (· + 1)

/-- Fuel-driven worker for `listReplace`; every step consumes at least one
character, so fuel equal to the length of the scanned list is enough. -/
def listReplaceAux (old new : PyStr) : Nat → PyStr → PyStr
  | 0, s => s
  | _ + 1, [] => []
  | fuel + 1, c :: rest =>
    if old.isPrefixOf (c :: rest) && !old.isEmpty then
      new ++ listReplaceAux old new fuel (List.drop (old.length - 1) rest)
    else
      c :: listReplaceAux old new fuel rest

/-- Python `s.replace(old, new)` for a non-empty `old`: replaces all
non-overlapping occurrences, scanning left to right. -/
def listReplace (old new s : PyStr) : PyStr :=
  listReplaceAux old new s.length s

/-- JSON-like values: the payloads that travel between the Python modules
(dict values, mock API payloads, parsed LLM replies). -/
inductive JVal where
  | null : JVal
  | str : PyStr → JVal
  | num : ℚ → JVal
  | arr : List JVal → JVal
  | obj : List (PyStr × JVal) → JVal

/-- Python dictionaries with string keys, in insertion order. -/
abbrev Dict := List (PyStr × JVal)

/-- Python `key in dict`. -/
def hasKey (d : Dict) (k : PyStr) : Bool := (d.lookup k).isSome

/-- Python `dict.get(key, default)` restricted to string values (all call
sites in the sources store strings under the keys read this way). -/
def lookupStrD (d : Dict) (k : PyStr) (dflt : PyStr) : PyStr :=
  match d.lookup k with
  | some (.str s) => s
  | _ => dflt

/-- Python `dict.get(key, default)` restricted to numeric values. -/
def lookupNumD (d : Dict) (k : PyStr) (dflt : ℚ) : ℚ :=
  match d.lookup k with
  | some (.num q) => q
  | _ => dflt

/-- Drops everything up to and including the first occurrence of `pat`
(`none` when `pat` does not occur). -/
def dropAfterSub (pat : PyStr) : PyStr → Option PyStr
  | [] => if pat.isEmpty then some [] else none
  | c :: rest =>
    if pat.isPrefixOf (c :: rest) then some (List.drop (pat.length - 1) rest)
    else dropAfterSub pat rest

/-- Splits at the first occurrence of `pat`: the part strictly before it and
the part strictly after it (`none` when `pat` does not occur). -/
def splitAtSub (pat : PyStr) : PyStr → Option (PyStr × PyStr)
  | [] => if pat.isEmpty then some ([], []) else none
  | c :: rest =>
    if pat.isPrefixOf (c :: rest) then some ([], List.drop (pat.length - 1) rest)
    else (splitAtSub pat rest).map (fun p => (c :: p.1, p.2))

/-- One non-greedy match of `re.search(open(.*?)close, s, re.DOTALL)`:
the captured body and the text after the closing delimiter. -/
def firstBlockBetween (opn cls s : PyStr) : Option (PyStr × PyStr) :=
  (dropAfterSub opn s).bind (splitAtSub cls)

/-- Fuel-driven worker for `findallBetween`. -/
def findallBetweenAux (opn cls : PyStr) : Nat → PyStr → List PyStr
  | 0, _ => []
  | fuel + 1, s =>
    match firstBlockBetween opn cls s with
    | some (body, rest) => body :: findallBetweenAux opn cls fuel rest
    | none => []

/-- Python `re.findall(r"open(.*?)close", s, re.DOTALL)` for literal
delimiters: all non-overlapping non-greedy matches, left to right. -/
def findallBetween (opn cls s : PyStr) : List PyStr :=
  findallBetweenAux opn cls s.length s

end MultiDocsRag

namespace MultiDocsRag.NL2SQL

/-
Shallow embedding of `src/NL2SQL/dbshow.py`.

The module-level configuration fixes `llm["instance"]["max_tokens"] = 8192`.
Inside `chatdb`, CPython scoping makes `syspromt` and `today` local to the
whole function body (both appear as assignment targets: `syspromt` in the
tuple assignment of the first line, `today` inside the loop), so reading
them on the right-hand side of the first statement consults the *local*
slot, which is still unbound.  `localRead` models such a read.
-/

/-- Exceptions distinguished by the embedding of `dbshow.py`. -/
inductive PyExc where
  | unboundLocal (name : PyStr)
  | indexError
  | apiError (msg : PyStr)
  | dbError (msg : PyStr)

/-- Python text of the exception, as interpolated by the f-strings. -/
def excText : PyExc → PyStr
  | .unboundLocal n => "cannot access local variable ".data ++ n
  | .indexError => "list index out of range".data
  | .apiError m => m
  | .dbError m => m

/-- Reading a function-local variable: raises `UnboundLocalError` when the
variable has not been assigned yet, exactly as CPython does. -/
def localRead {α : Type} (name : PyStr) (v : Option α) : Except PyExc α :=
  match v with
  | none => .error (.unboundLocal name)
  | some a => .ok a

/-- The value of `llm["instance"]["max_tokens"]` in `dbshow.py`. -/
def llmMaxTokens : Nat := 8192

/-- The module-level system template `syspromt` of `dbshow.py` (the global
that the function body can no longer see, because the tuple assignment in
`chatdb` makes the name local). -/
def syspromtTemplate : PyStr :=
  "\n# 需求背景：\n你是一个资深的MySQL数据库管理员，你的任务是结合用户提问和下面给的元信息，生成一条高性能的SQL查询语句，不需要其他解释，按markdown格式返回结果。\n\n# 元信息：\n今天日期是{today}\n## 表结构：\n{table_ddl}\n## 业务口径：\n{document}\n".data

/-- A chat message: role and content. -/
abbrev Message := PyStr × PyStr

/-- The reply of the chat-completions endpoint that `chatdb` consumes. -/
structure LLMResponse where
  totalTokens : Nat
  content : PyStr

/-- The local variables of `chatdb` that live across loop iterations.
Variables that are first assigned inside the loop body are `Option`s. -/
structure LoopState (DF : Type) where
  usetokens : Nat
  state : Nat
  think : PyStr
  messages : List Message
  today : Option PyStr
  llmsql : Option PyStr
  result : Option DF
  e : Option PyStr

/-- The `while` guard of line 52 of `dbshow.py`:
`usetokens >= llm["instance"]["max_tokens"] and state >= 5`. -/
def chatdbLoopGuard (usetokens state : Nat) : Bool :=
  decide (usetokens ≥ llmMaxTokens) && decide (state ≥ 5)

/-- The `try:` block of one `chatdb` loop iteration (lines 53–62): returns
the state as updated up to the point of an exception, plus the exception if
one was raised.  `oracle` is the chat endpoint, `db` is `pd.read_sql`
against the engine, `now` is today's date string. -/
def chatdbTry {DF : Type} (oracle : List Message → Except PyStr LLMResponse)
    (db : PyStr → Except PyStr DF) (now : PyStr) (s : LoopState DF) :
    LoopState DF × Option PyExc :=
  let s := { s with today := some now }
  match oracle s.messages with
  | .error m => (s, some (.apiError m))
  | .ok resp =>
    let s := { s with usetokens := s.usetokens + resp.totalTokens }
    let answer := resp.content
    match firstBlockBetween "```sql".data "```".data answer with
    | none => (s, some .indexError)
    | some (sql0, _) =>
      -- `.replace(";", "").replace("’", "'")`; `Char.ofNat 39` is the ASCII
      -- apostrophe that the second replace substitutes back in.
      let llmsql :=
        listReplace "’".data [Char.ofNat 39] (listReplace ";".data [] sql0)
      let s := { s with llmsql := some llmsql }
      let s :=
        if s.state = 1 then
          { s with
            think := (findallBetween "<think>".data "</think>".data answer).flatten }
        else s
      match db llmsql with
      | .error m => (s, some (.dbError m))
      | .ok df => ({ s with result := some df, state := 100 }, none)

/-- The `except Exception as e:` branch (lines 63–69).  It reads `llmsql`,
which is itself unbound if the exception struck before line 58, in which
case a fresh `UnboundLocalError` propagates out of the function. -/
def chatdbExceptBranch {DF : Type} (s : LoopState DF) (exc : PyExc) :
    Except PyExc (LoopState DF) := do
  let sql ← localRead "llmsql".data s.llmsql
  pure { s with
    messages := s.messages ++
      [("assistant".data, sql),
       ("user".data,
        "上面执行SQL出现报错：".data ++ excText exc ++
          "，请结合报错信息修正SQL，以markdown格式返回结果，无需解释。".data)],
    state := s.state + 1,
    e := some (excText exc) }

/-- The `while` loop of `chatdb` (lines 52–69), with explicit fuel; `fuel`
bounds the number of further guard evaluations, which suffices because the
guard `state >= 5` (sic) together with `state += 1` keeps every actual run
finite. -/
def chatdbLoop {DF : Type} (fuel : Nat)
    (oracle : List Message → Except PyStr LLMResponse)
    (db : PyStr → Except PyStr DF) (now : PyStr) (s : LoopState DF) :
    Except PyExc (LoopState DF) :=
  match fuel with
  | 0 => .ok s
  | fuel + 1 =>
    if chatdbLoopGuard s.usetokens s.state then
      match chatdbTry oracle db now s with
      | (s', none) => chatdbLoop fuel oracle db now s'
      | (s', some exc) => do
        let s'' ← chatdbExceptBranch s' exc
        chatdbLoop fuel oracle db now s''
    else .ok s

/-- Shallow embedding of `chatdb` (lines 49–70 of `dbshow.py`).

The first statement is the tuple assignment
`usetokens, state, think, syspromt = 0, 1, '', syspromt.format(today=today, ...)`.
CPython evaluates the right-hand side first; `syspromt.format` loads the
*local* `syspromt` (local because it is a target of this very assignment)
and `today` is likewise a local only assigned inside the loop, so the reads
go through `localRead` with an unbound (`none`) slot.  On success the
function would return `(think, result)`, or `('', "SQL生成失败…")` when
`state < 100`; both final reads of `result`/`e` are also local reads. -/
def chatdb {DF : Type} (question table_ddl document : PyStr)
    (oracle : List Message → Except PyStr LLMResponse)
    (db : PyStr → Except PyStr DF) (now : PyStr) (fuel : Nat) :
    Except PyExc (PyStr × (DF ⊕ PyStr)) := do
  let spTemplate ← localRead "syspromt".data (none : Option PyStr)
  let today0 ← localRead "today".data (none : Option PyStr)
  let usetokens := 0
  let state := 1
  let think : PyStr := []
  let syspromt :=
    listReplace "\"".data "”".data
      (listReplace [Char.ofNat 39] "’".data
        (listReplace "{document}".data document
          (listReplace "{table_ddl}".data table_ddl
            (listReplace "{today}".data today0 spTemplate))))
  let messages : List Message :=
    [("system".data, syspromt), ("user".data, question)]
  let s0 : LoopState DF :=
    { usetokens := usetokens, state := state, think := think,
      messages := messages, today := some today0, llmsql := none,
      result := none, e := none }
  let s ← chatdbLoop fuel oracle db now s0
  if s.state ≥ 100 then do
    let r ← localRead "result".data s.result
    pure (s.think, Sum.inl r)
  else do
    let em ← localRead "e".data s.e
    pure (([] : PyStr), Sum.inr ("SQL生成失败，错误信息：".data ++ em))

end MultiDocsRag.NL2SQL

namespace MultiDocsRag.NL2SQL

/-- C8: for every input question (and DDL, document, chat oracle, database
oracle, clock and fuel), `chatdb` raises `UnboundLocalError` for `syspromt`
on its very first statement, before any chat or database interaction: the
result is the same error no matter what the oracles would answer, so the
text-to-SQL path can never produce a `(think, result)` pair. -/
theorem chatdb_raises_unbound_local {DF : Type}
    (question table_ddl document : PyStr)
    (oracle : List Message → Except PyStr LLMResponse)
    (db : PyStr → Except PyStr DF) (now : PyStr) (fuel : Nat) :
    chatdb question table_ddl document oracle db now fuel =
      .error (.unboundLocal "syspromt".data) := rfl

/-- C1 (code bug): evaluating `chatdb` at a concrete, well-formed failing
input.  The claim says that on SQL execution failure the error is fed back
to the model as an assistant/user message pair; instead the call raises
`UnboundLocalError` immediately — even with a chat oracle that always
returns a fenced SQL block and a database that always fails, the feedback
branch is unreachable. -/
theorem chatdb_failing_input_raises :
    chatdb "查询交易流水表中最近一笔交易的金额".data
      "|transaction_flow|".data "业务口径".data
      (fun _ => .ok { totalTokens := 10, content := "```sql\nSELECT 1;\n```".data })
      (fun _ => (.error "Table not found".data : Except PyStr Unit))
      "2025-10-12".data 10 =
      .error (.unboundLocal "syspromt".data) := rfl

/-- C2 (code bug): the loop of `chatdb` never runs.  The first conjunct
evaluates the `while` guard of line 52 at the function's initial values
`usetokens = 0`, `state = 1`: it is `false`, so the body would execute zero
times (not "at least once").  The second conjunct runs the embedded loop
from that initial state with concrete oracles: it returns the state
untouched after zero iterations. -/
theorem chatdb_loop_never_entered :
    chatdbLoopGuard 0 1 = false ∧
    chatdbLoop 5
      (fun _ => .ok { totalTokens := 10, content := "```sql select 1 ```".data })
      (fun _ => (.ok () : Except PyStr Unit)) "2025-10-12".data
      { usetokens := 0, state := 1, think := [], messages := [],
        today := none, llmsql := none, result := none, e := none } =
      .ok { usetokens := 0, state := 1, think := [], messages := [],
            today := none, llmsql := none, result := none, e := none } :=
  ⟨rfl, rfl⟩

end MultiDocsRag.NL2SQL

namespace MultiDocsRag.ApiAgent

open MultiDocsRag

/-
Shallow embedding of `src/apiagent/IntentRecognizer.py`.

The regex searches of `extract_parameters` are implemented as leftmost
scanners over `List Char`.  For the patterns that occur in the source
(fixed-width pieces, greedy `\d+` runs followed only by literal
continuations) greedy scanning without backtracking coincides with Python
`re.search`.  `current_month` stands for `datetime.now().strftime('%Y-%m')`.
-/

/-- Leftmost-match driver: Python `re.search` tries the matcher at every
start position from left to right. -/
def reSearch {α : Type} (m : PyStr → Option α) : PyStr → Option α
  | [] => m []
  | c :: rest =>
    match m (c :: rest) with
    | some r => some r
    | none => reSearch m rest

/-- Matches `[0-9]{n}` at the current position. -/
def matchDigitsN (n : Nat) (s : PyStr) : Option PyStr :=
  let t := s.take n
  if t.length = n && t.all Char.isDigit then some t else none

/-- Matches `20[0-9]{2}-[0-9]{2}` at the current position. -/
def matchMonthAt : PyStr → Option PyStr
  | '2' :: '0' :: a :: b :: '-' :: c :: d :: _ =>
    if a.isDigit && b.isDigit && c.isDigit && d.isDigit then
      some ['2', '0', a, b, '-', c, d]
    else none
  | _ => none

/-- Matches `[A-Z]{2}\d+` at the current position (greedy digit run). -/
def matchHouseholdAt : PyStr → Option PyStr
  | a :: b :: rest =>
    if a.isUpper && b.isUpper then
      let ds := rest.takeWhile Char.isDigit
      if ds.isEmpty then none else some (a :: b :: ds)
    else none
  | _ => none

/-- Matches `[0-9]{18}|[0-9]{15}`: alternatives are tried left to right. -/
def matchCustomerIdAt (s : PyStr) : Option PyStr :=
  match matchDigitsN 18 s with
  | some t => some t
  | none => matchDigitsN 15 s

/-- Matches `M\d+` with `re.IGNORECASE` at the current position. -/
def matchMerchantAt : PyStr → Option PyStr
  | c :: rest =>
    if c == 'M' || c == 'm' then
      let ds := rest.takeWhile Char.isDigit
      if ds.isEmpty then none else some (c :: ds)
    else none
  | [] => none

/-- Matches `ORD\d+` with `re.IGNORECASE` at the current position. -/
def matchOrderAt : PyStr → Option PyStr
  | a :: b :: c :: rest =>
    if (a == 'O' || a == 'o') && (b == 'R' || b == 'r') && (c == 'D' || c == 'd') then
      let ds := rest.takeWhile Char.isDigit
      if ds.isEmpty then none else some (a :: b :: c :: ds)
    else none
  | _ => none

/-- Matches `(\d+(?:\.\d+)?)` at the current position: integer digits and
(possibly empty) fractional digits. -/
def matchNumberAt (s : PyStr) : Option (PyStr × PyStr) :=
  let ds := s.takeWhile Char.isDigit
  if ds.isEmpty then none
  else
    match s.drop ds.length with
    | '.' :: rest =>
      let fs := rest.takeWhile Char.isDigit
      if fs.isEmpty then some (ds, []) else some (ds, fs)
    | _ => some (ds, [])

/-- Matches `(\d+(?:\.\d+)?)元` at the current position. -/
def matchAmountYuanAt (s : PyStr) : Option (PyStr × PyStr) :=
  match matchNumberAt s with
  | none => none
  | some (ds, fs) =>
    let consumed := ds.length + (if fs.isEmpty then 0 else fs.length + 1)
    match s.drop consumed with
    | c :: _ => if c == '元' then some (ds, fs) else none
    | [] => none

/-- Digits to a natural number. -/
def digitsToNat (ds : PyStr) : Nat :=
  ds.foldl (fun n c => n * 10 + (c.toNat - 48)) 0

/-- Python `float()` of a decimal literal, modelled exactly in `ℚ`. -/
def decToRat (ds fs : PyStr) : ℚ :=
  (digitsToNat ds : ℚ) + (digitsToNat fs : ℚ) / ((10 : ℚ) ^ fs.length)

/-- The `currency_mapping` of the `汇率服务` branch, in source order. -/
def currency_mapping : List (PyStr × PyStr) :=
  [("人民币".data, "CNY".data), ("元".data, "CNY".data), ("人民币元".data, "CNY".data),
   ("美元".data, "USD".data), ("美金".data, "USD".data), ("美圆".data, "USD".data),
   ("日元".data, "JPY".data), ("円".data, "JPY".data), ("日圆".data, "JPY".data),
   ("韩元".data, "KRW".data), ("韩圜".data, "KRW".data), ("韩圆".data, "KRW".data),
   ("韩币".data, "KRW".data),
   ("欧元".data, "EUR".data), ("欧圆".data, "EUR".data),
   ("英镑".data, "GBP".data), ("英磅".data, "GBP".data)]

/-- The `(position, code, name)` triples of the currencies found in the
question, in mapping order (before the position sort). -/
def foundCurrencies (q : PyStr) : List (Nat × PyStr × PyStr) :=
  currency_mapping.filterMap (fun p =>
    (listFindSub p.1 q).map (fun pos => (pos, p.2, p.1)))

/-- The triples sorted by position; `list.sort(key=...)` is stable and so
is insertion sort. -/
def foundCurrenciesSorted (q : PyStr) : List (Nat × PyStr × PyStr) :=
  List.insertionSort (fun a b => a.1 ≤ b.1) (foundCurrencies q)

/-- Character class `[+\-*/^]` of the math patterns. -/
def isOpCh (c : Char) : Bool :=
  c == '+' || c == '-' || c == '*' || c == '/' || c == '^'

/-- One `\s*[+\-*/^]\s*\d+` step of the math patterns: the matched text and
the remaining input. -/
def matchOpNumStep (s : PyStr) : Option (PyStr × PyStr) :=
  let w1 := s.takeWhile Char.isWhitespace
  match s.drop w1.length with
  | op :: r2 =>
    if isOpCh op then
      let w2 := r2.takeWhile Char.isWhitespace
      let r3 := r2.drop w2.length
      let ds := r3.takeWhile Char.isDigit
      if ds.isEmpty then none
      else some (w1 ++ op :: (w2 ++ ds), r3.drop ds.length)
    else none
  | [] => none

/-- Greedy repetition of `matchOpNumStep` (fuel-driven; every step consumes
at least the operator character). -/
def matchOpNumRep : Nat → PyStr → PyStr
  | 0, _ => []
  | fuel + 1, s =>
    match matchOpNumStep s with
    | some (seg, rest) => seg ++ matchOpNumRep fuel rest
    | none => []

/-- Matches `(\d+(?:\s*[+\-*/^]\s*\d+)+)` at the current position. -/
def matchOpChainAt (s : PyStr) : Option PyStr :=
  let ds := s.takeWhile Char.isDigit
  if ds.isEmpty then none
  else
    let rest := s.drop ds.length
    match matchOpNumStep rest with
    | none => none
    | some (seg, rest2) => some (ds ++ seg ++ matchOpNumRep rest2.length rest2)

/-- Matches `(\d+\s*的\s*K)` at the current position, for `K` being
`平方` or `立方`. -/
def matchPowerAt (suffix : PyStr) (s : PyStr) : Option PyStr :=
  let ds := s.takeWhile Char.isDigit
  if ds.isEmpty then none
  else
    let r1 := s.drop ds.length
    let w1 := r1.takeWhile Char.isWhitespace
    match r1.drop w1.length with
    | c :: r2 =>
      if c == '的' then
        let w2 := r2.takeWhile Char.isWhitespace
        let r3 := r2.drop w2.length
        if suffix.isPrefixOf r3 then some (ds ++ w1 ++ c :: (w2 ++ suffix))
        else none
      else none
    | [] => none

/-- Matches `(\d+\s*[+\-*/^]\s*\d+)` at the current position. -/
def matchSingleOpAt (s : PyStr) : Option PyStr :=
  let ds := s.takeWhile Char.isDigit
  if ds.isEmpty then none
  else
    match matchOpNumStep (s.drop ds.length) with
    | some (seg, _) => some (ds ++ seg)
    | none => none

/-- The `math_patterns` loop of the `计算器工具` branch: the four patterns
are searched over the whole question in order, stopping at the first hit. -/
def calcExprFromPatterns (q : PyStr) : Option PyStr :=
  match reSearch matchOpChainAt q with
  | some e => some e
  | none =>
    match reSearch (matchPowerAt "平方".data) q with
    | some e => some e
    | none =>
      match reSearch (matchPowerAt "立方".data) q with
      | some e => some e
      | none => reSearch matchSingleOpAt q

/-- Expression cleaning of the `计算器工具` branch:
`.replace('的平方','**2').replace('的立方','**3')` then `re.sub(r'\s+','')`. -/
def cleanMathExpr (e : PyStr) : PyStr :=
  (listReplace "的立方".data "**3".data
    (listReplace "的平方".data "**2".data e)).filter (fun c => !c.isWhitespace)

/-- Python `str.strip()`. -/
def pyStrip (s : PyStr) : PyStr :=
  ((s.dropWhile Char.isWhitespace).reverse.dropWhile Char.isWhitespace).reverse

/-- The words removed from the question by the calculator fallback. -/
def calcStopWords : List PyStr :=
  ["计算".data, "等于多少".data, "算式".data, "结果".data, "是多少".data]

/-- The calculator fallback text: remove the stop words, then strip. -/
def calcFallbackText (q : PyStr) : PyStr :=
  pyStrip (calcStopWords.foldl (fun t w => listReplace w [] t) q)

/-- Character class `[\d+\-*/().^]` of the calculator fallback check. -/
def calcCharClass (c : Char) : Bool :=
  c.isDigit || c == '+' || c == '-' || c == '*' || c == '/' ||
    c == '(' || c == ')' || c == '.' || c == '^'

/-- Python `re.match(r'^[...]+$', s)`: at least one character of the class,
spanning the whole string; `$` also matches just before one trailing
newline. -/
def fullMatchClass (cls : Char → Bool) (s : PyStr) : Bool :=
  let core := if s.getLast? == some '\n' then s.dropLast else s
  !core.isEmpty && core.all cls

/-- Shallow embedding of `IntentRecognizer.extract_parameters`
(lines 57–198), branch by branch in source order.  `current_month` is the
value `datetime.now().strftime('%Y-%m')` used for the month defaults. -/
def extract_parameters (current_month : PyStr) (question tool_name : PyStr) : Dict :=
  if tool_name == "信用卡服务".data then
    (match reSearch (matchDigitsN 16) question with
      | some card => [("cardNumber".data, JVal.str card)]
      | none => []) ++
    (match reSearch matchMonthAt question with
      | some m => [("month".data, JVal.str m)]
      | none => [("month".data, JVal.str current_month)])
  else if tool_name == "汇率服务".data then
    (match reSearch matchNumberAt question with
      | some (ds, fs) => [("amount".data, JVal.num (decToRat ds fs))]
      | none => []) ++
    (match foundCurrenciesSorted question with
      | (_, code1, _) :: (_, code2, _) :: _ =>
        [("fromCurrency".data, JVal.str code1), ("toCurrency".data, JVal.str code2)]
      | [(_, code1, _)] =>
        -- both branches of the direction heuristic assign the same pair
        if listContainsSub "等于多少".data question ||
            listContainsSub "兑换".data question then
          [("fromCurrency".data, JVal.str code1), ("toCurrency".data, JVal.str "CNY".data)]
        else
          [("fromCurrency".data, JVal.str code1), ("toCurrency".data, JVal.str "CNY".data)]
      | [] => [])
  else if tool_name == "水电煤服务".data then
    (match reSearch matchHouseholdAt question with
      | some h => [("householdId".data, JVal.str h)]
      | none => []) ++
    (match reSearch matchMonthAt question with
      | some m => [("month".data, JVal.str m)]
      | none => [("month".data, JVal.str current_month)]) ++
    (if listContainsSub "电".data question then
      [("utilityType".data, JVal.str "electricity".data)]
    else if listContainsSub "水".data question then
      [("utilityType".data, JVal.str "water".data)]
    else if listContainsSub "煤".data question || listContainsSub "气".data question then
      [("utilityType".data, JVal.str "gas".data)]
    else
      [("utilityType".data, JVal.str "electricity".data)])
  else if tool_name == "用户资产服务".data then
    (match reSearch matchCustomerIdAt question with
      | some i => [("customerId".data, JVal.str i)]
      | none => []) ++
    (if listContainsSub "房产".data question || listContainsSub "房子".data question then
      [("assetType".data, JVal.str "household".data)]
    else
      [("assetType".data, JVal.str "card".data)])
  else if tool_name == "支付订单服务".data then
    (match reSearch matchMerchantAt question with
      | some m => [("merchantId".data, JVal.str m)]
      | none => []) ++
    (match reSearch matchOrderAt question with
      | some o => [("orderId".data, JVal.str o)]
      | none => []) ++
    (match reSearch matchAmountYuanAt question with
      | some (ds, fs) => [("amount".data, JVal.num (decToRat ds fs))]
      | none => [])
  else if tool_name == "计算器工具".data then
    if listContainsSub "计算".data question || listContainsSub "等于".data question ||
        listContainsSub "算式".data question then
      match calcExprFromPatterns question with
      | some e => [("expression".data, JVal.str (cleanMathExpr e))]
      | none =>
        let t := calcFallbackText question
        if fullMatchClass calcCharClass t then [("expression".data, JVal.str t)]
        else []
    else []
  else []

/-- One entry of the `api_tools_mapping` table. -/
structure ApiTool where
  keywords : List PyStr
  required_params : List PyStr
  optional_params : List PyStr
  deriving DecidableEq

/-- The `信用卡服务` entry of `api_tools_mapping`. -/
def creditCardTool : ApiTool :=
  { keywords := ["信用卡".data, "账单".data, "cardNumber".data, "月账单".data,
                 "信用卡账单".data],
    required_params := ["cardNumber".data, "month".data],
    optional_params := [] }

/-- The `汇率服务` entry of `api_tools_mapping`. -/
def exchangeRateTool : ApiTool :=
  { keywords := ["汇率".data, "兑换".data, "货币".data, "等于多少".data, "换成".data,
                 "人民币".data, "美元".data, "日元".data, "韩元".data],
    required_params := ["fromCurrency".data, "toCurrency".data],
    optional_params := ["amount".data] }

/-- The `水电煤服务` entry of `api_tools_mapping`. -/
def utilityBillTool : ApiTool :=
  { keywords := ["水电煤".data, "电费".data, "水费".data, "煤气费".data, "户号".data,
                 "householdId".data, "用电量".data, "用水量".data],
    required_params := ["householdId".data, "month".data],
    optional_params := ["utilityType".data] }

/-- The `用户资产服务` entry of `api_tools_mapping`. -/
def userAssetsTool : ApiTool :=
  { keywords := ["用户资产".data, "资产信息".data, "customerId".data, "资产查询".data],
    required_params := ["customerId".data],
    optional_params := ["assetType".data] }

/-- The `支付订单服务` entry of `api_tools_mapping`. -/
def paymentOrderTool : ApiTool :=
  { keywords := ["支付订单".data, "创建订单".data, "merchantId".data, "orderId".data,
                 "支付".data],
    required_params := ["merchantId".data, "orderId".data],
    optional_params := ["amount".data] }

/-- The `获取当前日期工具` entry of `api_tools_mapping`. -/
def currentDateTool : ApiTool :=
  { keywords := ["当前日期".data, "现在时间".data, "今天日期".data, "现在几点".data,
                 "今天几号".data],
    required_params := [],
    optional_params := [] }

/-- The `计算器工具` entry of `api_tools_mapping`. -/
def calculatorTool : ApiTool :=
  { keywords := ["计算".data, "等于多少".data, "算式".data, "表达式".data, "算一下".data,
                 "计算结果".data],
    required_params := ["expression".data],
    optional_params := [] }

/-- The `api_tools_mapping` of `IntentRecognizer.__init__`, in source
order. -/
def api_tools_mapping : List (PyStr × ApiTool) :=
  [("信用卡服务".data, creditCardTool),
   ("汇率服务".data, exchangeRateTool),
   ("水电煤服务".data, utilityBillTool),
   ("用户资产服务".data, userAssetsTool),
   ("支付订单服务".data, paymentOrderTool),
   ("获取当前日期工具".data, currentDateTool),
   ("计算器工具".data, calculatorTool)]

/-- The names of the seven API tools, in table order. -/
def apiToolNames : List PyStr := api_tools_mapping.map Prod.fst

/-- The `database_keywords` of `IntentRecognizer.__init__`. -/
def database_keywords : List (PyStr × List PyStr) :=
  [("交易流水表".data,
    ["交易流水".data, "交易记录".data, "transaction_id".data, "交易金额".data,
     "交易时间".data]),
   ("机构信息表".data,
    ["机构信息".data, "institution_id".data, "机构名称".data, "许可证号".data]),
   ("商户信息表".data,
    ["商户信息".data, "merchant_id".data, "商户名称".data, "营业执照".data])]

/-- The `database_queries` list of `recognize_intent_by_rule` (lines
204–207): the tables one of whose keywords occurs in the question. -/
def databaseQueries (q : PyStr) : List PyStr :=
  (database_keywords.filter (fun p => p.2.any (fun kw => listContainsSub kw q))).map
    Prod.fst

/-- One tool of the API matching stage (lines 215–224): `some params` when
a keyword of the tool occurs in the question and extraction produced every
required parameter, `none` otherwise.  `ext` stands for the
`self.extract_parameters` method. -/
def toolEntry (ext : PyStr → PyStr → Dict) (q name : PyStr) (t : ApiTool) :
    Option JVal :=
  if t.keywords.any (fun kw => listContainsSub kw q) then
    let params := ext q name
    if (t.required_params.filter (fun p => !hasKey params p)).isEmpty then
      some (.obj params)
    else none
  else none

/-- The `recognized_tools` dict (lines 214–224). -/
def recognizedTools (ext : PyStr → PyStr → Dict) (q : PyStr) : Dict :=
  api_tools_mapping.filterMap (fun p =>
    (toolEntry ext q p.1 p.2).map (fun v => (p.1, v)))

/-- Shallow embedding of `recognize_intent_by_rule` (lines 200–234),
parameterised over the extraction method it dispatches to (the database
branch returns before any matching or extraction happens). -/
def recognize_intent_by_rule_with (ext : PyStr → PyStr → Dict) (q : PyStr) :
    Dict :=
  if !(databaseQueries q).isEmpty then
    [("查询工具".data, JVal.str "数据库".data)]
  else
    let recognized := recognizedTools ext q
    if recognized.length = 1 then recognized
    else if recognized.length > 1 then recognized
    else []

/-- The rule-based recognizer with its real extraction method. -/
def recognize_intent_by_rule (current_month q : PyStr) : Dict :=
  recognize_intent_by_rule_with (extract_parameters current_month) q

/-- Python `content[len('```json'):-3]` applied when the content starts
with the fence. -/
def stripJsonFence (content : PyStr) : PyStr :=
  if "```json".data.isPrefixOf content then
    let t := content.drop 7
    t.take (t.length - 3)
  else content

/-- Shallow embedding of `recognize_intent_by_api` (lines 236–775).

The network request, `response.json()` and the `["choices"][0]["message"]
["content"]` extraction are folded into `resp` (an `Except`: any
`requests` failure or missing field is the `.error` case, caught by the
`except` clauses of the source).  `parseJson` stands for `json.loads`,
returning `none` on `JSONDecodeError`.  The ```json code-block fallback is
the embedded `findallBetween` with the group stripped, as in the source
regex `r'```json\s*(.*?)\s*```'`. -/
def recognize_intent_by_api (current_month : PyStr)
    (parseJson : PyStr → Option JVal) (question : PyStr)
    (resp : Except PyStr PyStr) : JVal :=
  match resp with
  | .error _ => .obj (recognize_intent_by_rule current_month question)
  | .ok content0 =>
    let content := stripJsonFence content0
    match parseJson content with
    | some j => j
    | none =>
      match findallBetween "```json".data "```".data content with
      | block :: _ =>
        match parseJson (pyStrip block) with
        | some j => j
        | none => .obj (recognize_intent_by_rule current_month question)
      | [] => .obj (recognize_intent_by_rule current_month question)

end MultiDocsRag.ApiAgent


namespace MultiDocsRag.ApiAgent

/-
Shallow embedding of `src/apiagent/APIServices.py`.

`TEST_MODE` is the module-level constant (set to `True` in the source).
`Net` is the network oracle: what `self.session.get(url, params=...).json()`
would produce, with `.error` standing for a raised
`requests.exceptions.RequestException`.  Quantifying a theorem over all
`net` expresses that no network request influences the result.
The `datetime.now()` timestamps appearing inside mock payloads are the
`now`/`expire` string parameters.
-/

/-- The module-level `TEST_MODE` flag of `APIServices.py`. -/
def TEST_MODE : Bool := true

/-- Network oracle type (see the section comment). -/
abbrev Net := PyStr → Dict → Except PyStr Dict

/-- The body of `APIToolClient._get`, parameterised by the (possibly
overridden) `_get_mock_data` of the concrete service. -/
def clientGet (mock : PyStr → Dict → Dict) (net : Net) (endpoint : PyStr)
    (params : Dict) : Dict :=
  if TEST_MODE then mock endpoint params
  else
    match net endpoint params with
    | .ok d => d
    | .error m => [("error".data, JVal.str ("API请求失败: ".data ++ m))]

/-- The base `_get_mock_data` of `APIToolClient` (not overridden). -/
def clientBaseMockData (endpoint : PyStr) (params : Dict) : Dict :=
  [("status".data, JVal.str "success".data),
   ("message".data, JVal.str "测试模式 - 模拟数据".data),
   ("endpoint".data, JVal.str endpoint),
   ("params".data, JVal.obj params),
   ("data".data, JVal.obj [])]

/-- `APIToolClient._validate_parameters`: every required field is present
and not `None`. -/
def validate_parameters (params : Dict) (required : List PyStr) : Bool :=
  required.all (fun f =>
    match params.lookup f with
    | some JVal.null => false
    | some _ => true
    | none => false)

/-- An optional Python string as a dict value (`None` becomes `null`). -/
def optStr : Option PyStr → JVal
  | some s => .str s
  | none => .null

/-- The `params` dict built by `CreditCardService.get_monthly_bill`. -/
def creditCardParams (cardNumber month : Option PyStr) : Dict :=
  [("cardNumber".data, optStr cardNumber), ("month".data, optStr month)]

/-- `CreditCardService._get_mock_data`. -/
def creditCardMockData (_endpoint : PyStr) (params : Dict) : Dict :=
  let month := lookupStrD params "month".data []
  [("status".data, JVal.str "success".data),
   ("cardNumber".data, JVal.str (lookupStrD params "cardNumber".data [])),
   ("month".data, JVal.str month),
   ("totalAmount".data, JVal.num 1250.50),
   ("currency".data, JVal.str "CNY".data),
   ("transactions".data, JVal.arr
     [JVal.obj [("date".data, JVal.str (month ++ "-01".data)),
                ("amount".data, JVal.num 150.00),
                ("merchant".data, JVal.str "超市购物".data)],
      JVal.obj [("date".data, JVal.str (month ++ "-05".data)),
                ("amount".data, JVal.num 300.00),
                ("merchant".data, JVal.str "餐厅消费".data)],
      JVal.obj [("date".data, JVal.str (month ++ "-15".data)),
                ("amount".data, JVal.num 800.50),
                ("merchant".data, JVal.str "在线购物".data)]]),
   ("dueDate".data, JVal.str (month ++ "-25".data)),
   ("minPayment".data, JVal.num 125.05)]

/-- `CreditCardService.get_monthly_bill`. -/
def creditCard_get_monthly_bill (net : Net) (cardNumber month : Option PyStr) :
    Dict :=
  let params := creditCardParams cardNumber month
  if !validate_parameters params ["cardNumber".data, "month".data] then
    [("error".data, JVal.str "缺少必填参数: cardNumber 或 month".data)]
  else
    clientGet creditCardMockData net "/api/credit-card/monthly-bill".data params

/-- `ExchangeRateService.SUPPORTED_CURRENCIES`. -/
def SUPPORTED_CURRENCIES : List PyStr :=
  ["USD".data, "CNY".data, "EUR".data, "JPY".data, "GBP".data, "KRW".data]

/-- Python `str.upper()` (source strings are ASCII currency codes). -/
def pyUpper (s : PyStr) : PyStr := s.map Char.toUpper

/-- The fixed `exchange_rates` table of `ExchangeRateService._get_mock_data`. -/
def exchange_rates : List ((PyStr × PyStr) × ℚ) :=
  [(("USD".data, "CNY".data), 6.5), (("CNY".data, "USD".data), 0.15),
   (("JPY".data, "CNY".data), 0.045), (("CNY".data, "JPY".data), 22.22),
   (("EUR".data, "CNY".data), 7.2), (("CNY".data, "EUR".data), 0.14),
   (("GBP".data, "CNY".data), 8.1), (("CNY".data, "GBP".data), 0.12),
   (("KRW".data, "CNY".data), 0.005), (("CNY".data, "KRW".data), 200)]

/-- `exchange_rates.get((from, to), 1.0)`. -/
def rateLookup (fromC toC : PyStr) : ℚ :=
  (exchange_rates.lookup (fromC, toC)).getD 1

/-- Python 3 `round()` rounds halves to the nearest even integer (the mock
amounts are modelled as exact rationals). -/
def roundHalfEven (q : ℚ) : ℤ :=
  let fl := ⌊q⌋
  let frac := q - fl
  if frac < 1/2 then fl
  else if 1/2 < frac then fl + 1
  else if fl % 2 = 0 then fl else fl + 1

/-- Python `round(x, 2)`. -/
def round2 (q : ℚ) : ℚ := (roundHalfEven (q * 100) : ℚ) / 100

/-- `ExchangeRateService._get_mock_data`; `now` is
`datetime.now().isoformat()`. -/
def exchangeRateMockData (now : PyStr) (_endpoint : PyStr) (params : Dict) :
    Dict :=
  let from_currency := pyUpper (lookupStrD params "fromCurrency".data [])
  let to_currency := pyUpper (lookupStrD params "toCurrency".data [])
  let amount := lookupNumD params "amount".data 1
  let rate := rateLookup from_currency to_currency
  let converted_amount := amount * rate
  [("status".data, JVal.str "success".data),
   ("fromCurrency".data, JVal.str from_currency),
   ("toCurrency".data, JVal.str to_currency),
   ("amount".data, JVal.num amount),
   ("exchangeRate".data, JVal.num rate),
   ("convertedAmount".data, JVal.num (round2 converted_amount)),
   ("timestamp".data, JVal.str now)]

/-- The `params` dict built by `ExchangeRateService.get_exchange_rate`. -/
def exchangeParams (fromCurrency toCurrency : PyStr) (amount : ℚ) : Dict :=
  [("fromCurrency".data, JVal.str (pyUpper fromCurrency)),
   ("toCurrency".data, JVal.str (pyUpper toCurrency)),
   ("amount".data, JVal.num amount)]

/-- `ExchangeRateService.get_exchange_rate` (default `amount=1.0`). -/
def get_exchange_rate (net : Net) (now : PyStr)
    (fromCurrency toCurrency : PyStr) (amount : ℚ := 1) : Dict :=
  let params := exchangeParams fromCurrency toCurrency amount
  if !(SUPPORTED_CURRENCIES.contains (pyUpper fromCurrency)) then
    [("error".data, JVal.str ("不支持的源货币代码: ".data ++ fromCurrency))]
  else if !(SUPPORTED_CURRENCIES.contains (pyUpper toCurrency)) then
    [("error".data, JVal.str ("不支持的目标货币代码: ".data ++ toCurrency))]
  else if !validate_parameters params ["fromCurrency".data, "toCurrency".data] then
    [("error".data, JVal.str "缺少必填参数: fromCurrency 或 toCurrency".data)]
  else
    clientGet (exchangeRateMockData now) net "/api/exchange-rate".data params

/-- `UtilityBillService.utilityTypeS`. -/
def utilityTypeS : List PyStr :=
  ["electricity".data, "water".data, "gas".data]

/-- The `params` dict built by `UtilityBillService.get_monthly_bill`. -/
def utilityParams (householdId month : Option PyStr) (utilityType : PyStr) :
    Dict :=
  [("householdId".data, optStr householdId), ("month".data, optStr month),
   ("utilityType".data, JVal.str utilityType)]

/-- `UtilityBillService._get_mock_data`. -/
def utilityMockData (_endpoint : PyStr) (params : Dict) : Dict :=
  let utility_type := lookupStrD params "utilityType".data "electricity".data
  let household_id := lookupStrD params "householdId".data []
  let month := lookupStrD params "month".data []
  if utility_type == "electricity".data then
    [("status".data, JVal.str "success".data),
     ("householdId".data, JVal.str household_id),
     ("month".data, JVal.str month),
     ("utilityType".data, JVal.str "electricity".data),
     ("usage".data, JVal.num 256.5),
     ("amount".data, JVal.num 128.25),
     ("unitPrice".data, JVal.num 0.5),
     ("dueDate".data, JVal.str (month ++ "-20".data))]
  else if utility_type == "water".data then
    [("status".data, JVal.str "success".data),
     ("householdId".data, JVal.str household_id),
     ("month".data, JVal.str month),
     ("utilityType".data, JVal.str "water".data),
     ("usage".data, JVal.num 15.8),
     ("amount".data, JVal.num 47.4),
     ("unitPrice".data, JVal.num 3.0),
     ("dueDate".data, JVal.str (month ++ "-15".data))]
  else
    [("status".data, JVal.str "success".data),
     ("householdId".data, JVal.str household_id),
     ("month".data, JVal.str month),
     ("utilityType".data, JVal.str "gas".data),
     ("usage".data, JVal.num 32.2),
     ("amount".data, JVal.num 96.6),
     ("unitPrice".data, JVal.num 3.0),
     ("dueDate".data, JVal.str (month ++ "-25".data))]

/-- `UtilityBillService.get_monthly_bill` (default `utilityType='electricity'`). -/
def utility_get_monthly_bill (net : Net) (householdId month : Option PyStr)
    (utilityType : PyStr := "electricity".data) : Dict :=
  let params := utilityParams householdId month utilityType
  if !validate_parameters params ["householdId".data, "month".data] then
    [("error".data, JVal.str "缺少必填参数: householdId 或 month".data)]
  else if !(utilityTypeS.contains utilityType) then
    [("error".data, JVal.str ("不支持的账单类型: ".data ++ utilityType))]
  else
    clientGet utilityMockData net "/api/utility-bill/monthly-bill".data params

/-- `UserAssetsService.assetTypeS`. -/
def assetTypeS : List PyStr := ["card".data, "household".data]

/-- The `params` dict built by `UserAssetsService.get_user_assets`. -/
def userAssetsParams (customerId : Option PyStr) (assetType : PyStr) : Dict :=
  [("customerId".data, optStr customerId),
   ("assetType".data, JVal.str assetType)]

/-- `UserAssetsService._get_mock_data`. -/
def userAssetsMockData (_endpoint : PyStr) (params : Dict) : Dict :=
  let customer_id := lookupStrD params "customerId".data []
  let asset_type := lookupStrD params "assetType".data "card".data
  if asset_type == "card".data then
    [("status".data, JVal.str "success".data),
     ("customerId".data, JVal.str customer_id),
     ("assetType".data, JVal.str "card".data),
     ("totalAssets".data, JVal.num 125000.50),
     ("cards".data, JVal.arr
       [JVal.obj [("cardNumber".data, JVal.str "6211111111111111".data),
                  ("cardType".data, JVal.str "信用卡".data),
                  ("bank".data, JVal.str "中国银行".data),
                  ("creditLimit".data, JVal.num 50000.00),
                  ("availableCredit".data, JVal.num 37500.00),
                  ("currentBalance".data, JVal.num 12500.00)],
        JVal.obj [("cardNumber".data, JVal.str "6222222222222222".data),
                  ("cardType".data, JVal.str "借记卡".data),
                  ("bank".data, JVal.str "工商银行".data),
                  ("balance".data, JVal.num 112500.50)]])]
  else
    [("status".data, JVal.str "success".data),
     ("customerId".data, JVal.str customer_id),
     ("assetType".data, JVal.str "household".data),
     ("totalAssets".data, JVal.num 3500000.00),
     ("properties".data, JVal.arr
       [JVal.obj [("address".data, JVal.str "北京市朝阳区某某小区1号楼101".data),
                  ("area".data, JVal.num 85.6),
                  ("estimatedValue".data, JVal.num 2500000.00),
                  ("purchaseDate".data, JVal.str "2018-05-15".data)],
        JVal.obj [("address".data, JVal.str "上海市浦东新区某某路200号".data),
                  ("area".data, JVal.num 120.0),
                  ("estimatedValue".data, JVal.num 1000000.00),
                  ("purchaseDate".data, JVal.str "2020-12-20".data)]])]

/-- `UserAssetsService.get_user_assets` (default `assetType='card'`). -/
def get_user_assets (net : Net) (customerId : Option PyStr)
    (assetType : PyStr := "card".data) : Dict :=
  let params := userAssetsParams customerId assetType
  if !validate_parameters params ["customerId".data] then
    [("error".data, JVal.str "缺少必填参数: customerId".data)]
  else if !(assetTypeS.contains assetType) then
    [("error".data, JVal.str ("不支持的资产类型: ".data ++ assetType))]
  else
    clientGet userAssetsMockData net "/api/user/assets".data params

/-- The `params` dict built by `PaymentOrderService.create_payment_order`
(`amount` is added only when it is not `None`). -/
def paymentParams (merchantId orderId : Option PyStr) (amount : Option ℚ) :
    Dict :=
  [("merchantId".data, optStr merchantId), ("orderId".data, optStr orderId)] ++
    (match amount with
     | some a => [("amount".data, JVal.num a)]
     | none => [])

/-- `PaymentOrderService._get_mock_data`; `now`/`expire` are
`datetime.now().isoformat()` and the 24-hour expiry timestamp. -/
def paymentMockData (now expire : PyStr) (_endpoint : PyStr) (params : Dict) :
    Dict :=
  let merchant_id := lookupStrD params "merchantId".data []
  let order_id := lookupStrD params "orderId".data []
  let amount := lookupNumD params "amount".data 0
  [("status".data, JVal.str "success".data),
   ("merchantId".data, JVal.str merchant_id),
   ("orderId".data, JVal.str order_id),
   ("amount".data, JVal.num amount),
   ("orderStatus".data, JVal.str "CREATED".data),
   ("paymentUrl".data, JVal.str ("https://payment.example.com/pay/".data ++ order_id)),
   ("qrCode".data, JVal.str "data:image/png;base64,模拟二维码数据".data),
   ("createTime".data, JVal.str now),
   ("expireTime".data, JVal.str expire)]

/-- `PaymentOrderService.create_payment_order`. -/
def create_payment_order (net : Net) (now expire : PyStr)
    (merchantId orderId : Option PyStr) (amount : Option ℚ) : Dict :=
  let params := paymentParams merchantId orderId amount
  if !validate_parameters params ["merchantId".data, "orderId".data] then
    [("error".data, JVal.str "缺少必填参数: merchantId 或 orderId".data)]
  else
    clientGet (paymentMockData now expire) net
      "/api/qr/create-payment-order".data params

/-- Outcome of the Python `eval` call inside `LocalTools.calculator`: a
value with its Python type name, a `ZeroDivisionError`, or any other
exception (everything `except Exception` catches). -/
inductive EvalOutcome where
  | ok (v : JVal) (ty : PyStr)
  | zeroDiv
  | exc (msg : PyStr)

/-- The `replace_dict` of `LocalTools.calculator`, in source order. -/
def calcReplacements : List (PyStr × PyStr) :=
  [(" ".data, []), ("^".data, "**".data), ("的平方".data, "**2".data),
   ("的立方".data, "**3".data), ("是多少".data, []), ("等于多少".data, [])]

/-- The sanitising replace loop of `LocalTools.calculator`. -/
def applyCalcReplacements (e : PyStr) : PyStr :=
  calcReplacements.foldl (fun t p => listReplace p.1 p.2 t) e

/-- Character class `[0-9+\-*/().,sqrtpowlogsincostan]` of the whitelist
check (the letters are those of sqrt/pow/log/sin/cos/tan). -/
def calculatorCharClass (c : Char) : Bool :=
  c.isDigit || c == '+' || c == '-' || c == '*' || c == '/' ||
    c == '(' || c == ')' || c == '.' || c == ',' ||
    c == 's' || c == 'q' || c == 'r' || c == 't' || c == 'p' || c == 'o' ||
    c == 'w' || c == 'l' || c == 'g' || c == 'i' || c == 'n' || c == 'c' ||
    c == 'a'

/-- The `math.`-prefixing replaces of `LocalTools.calculator`, in source
order (sqrt, pow, sin, cos, tan, log). -/
def mathifyExpr (e : PyStr) : PyStr :=
  listReplace "log".data "math.log".data
    (listReplace "tan".data "math.tan".data
      (listReplace "cos".data "math.cos".data
        (listReplace "sin".data "math.sin".data
          (listReplace "pow".data "math.pow".data
            (listReplace "sqrt".data "math.sqrt".data e)))))

/-- Shallow embedding of `LocalTools.calculator` (lines 399–431).
`evalOracle` models the Python `eval(expression, {'math': math,
'__builtins__': {}})` call; the whole body is one `try` whose handlers
cover `ZeroDivisionError` and every other `Exception`. -/
def calculator (evalOracle : PyStr → EvalOutcome) (expression : PyStr) : Dict :=
  let e1 := applyCalcReplacements expression
  if !fullMatchClass calculatorCharClass e1 then
    [("expression".data, JVal.str e1),
     ("error".data, JVal.str "表达式包含不安全字符".data)]
  else
    let e2 := mathifyExpr e1
    match evalOracle e2 with
    | .ok v ty =>
      [("expression".data, JVal.str e2), ("result".data, v),
       ("type".data, JVal.str ty)]
    | .zeroDiv => [("error".data, JVal.str "除零错误".data)]
    | .exc m => [("error".data, JVal.str ("计算错误: ".data ++ m))]

end MultiDocsRag.ApiAgent

namespace MultiDocsRag.MainApp

open MultiDocsRag

/-
Shallow embedding of the routing and retrieval parts of `src/main.py`
(and the identical `load_and_query` of `src/app.py`).
-/

/-- The three-way dispatch of `process_query` (main.py lines 205–232); the
two tool branches (`工具依赖调用` and the generic tool execution) are both
tool-execution paths from the claim's point of view but are kept apart. -/
inductive RoutePath where
  | sqlQuery : RoutePath
  | toolDependencyCall : RoutePath
  | toolExecution : RoutePath
  | ragAnswer : RoutePath
  deriving DecidableEq

/-- The routing decision of `process_query` as a function of the dict
returned by `recognize_intent` (`if intent_result:` is Python dict
truthiness, i.e. non-emptiness). -/
def process_query_route (intent : Dict) : RoutePath :=
  if !intent.isEmpty then
    if hasKey intent "数据库".data then .sqlQuery
    else if hasKey intent "工具依赖调用".data then .toolDependencyCall
    else .toolExecution
  else .ragAnswer

/-- `np.argsort(scores)`: the indices `0..n-1` sorted by ascending score.
`np.argsort` may break ties arbitrarily; insertion sort realises one valid
tie-breaking, and none of the proved properties depend on it.  The score
type is any linear order (the cross-encoder emits floats, of which only the
ordering matters here). -/
def argsort {α : Type} [LinearOrder α] (n : Nat) (score : Nat → α) : List Nat :=
  List.insertionSort (fun i j => score i ≤ score j) (List.range n)

/-- `np.argsort(scores)[::-1][:top_k]` of `load_and_query`. -/
def topIndices {α : Type} [LinearOrder α] (n : Nat) (score : Nat → α)
    (top_k : Nat := 5) : List Nat :=
  ((argsort n score).reverse).take top_k

/-- Shallow embedding of `load_and_query` (main.py lines 148–157, app.py
lines 184–199): `doc i` is the `i`-th retrieved candidate (the retriever
returns `n = 20` of them), `score i` its cross-encoder score, and the
result is `[docs[i] for i in np.argsort(scores)[::-1][:top_k]]`. -/
def load_and_query {α Doc : Type} [LinearOrder α] (n : Nat) (doc : Nat → Doc)
    (score : Nat → α) (top_k : Nat := 5) : List Doc :=
  (topIndices n score top_k).map doc

end MultiDocsRag.MainApp

namespace MultiDocsRag.MainApp

theorem argsort_perm {α : Type} [LinearOrder α] (n : Nat) (score : Nat → α) :
    List.Perm (argsort n score) (List.range n) :=
  List.perm_insertionSort _ _

theorem argsort_sorted {α : Type} [LinearOrder α] (n : Nat) (score : Nat → α) :
    List.Pairwise (fun i j => score i ≤ score j) (argsort n score) := by
  haveI : IsTotal Nat (fun i j => score i ≤ score j) :=
    ⟨fun a b => le_total (score a) (score b)⟩
  haveI : IsTrans Nat (fun i j => score i ≤ score j) :=
    ⟨fun _ _ _ hab hbc => le_trans hab hbc⟩
  exact List.sorted_insertionSort _ _

/-- C4: reranking is score-sort.  For every candidate count `n`, document
assignment, cross-encoder score assignment and `top_k`: `load_and_query`
returns at most `top_k` documents; the selected indices are ordered by
non-increasing score; and the score of every non-selected candidate is at
most the score of every selected one. -/
theorem load_and_query_rerank_spec {α Doc : Type} [LinearOrder α]
    (n : Nat) (doc : Nat → Doc) (score : Nat → α) (k : Nat) :
    (load_and_query n doc score k).length ≤ k ∧
    List.Pairwise (fun i j => score j ≤ score i) (topIndices n score k) ∧
    ∀ j, j < n → j ∉ topIndices n score k →
      ∀ i ∈ topIndices n score k, score j ≤ score i := by
  have hperm : List.Perm (argsort n score) (List.range n) := argsort_perm n score
  have hrevSorted : List.Pairwise (fun i j => score j ≤ score i)
      ((argsort n score).reverse) := by
    rw [List.pairwise_reverse]
    exact argsort_sorted n score
  refine ⟨?_, ?_, ?_⟩
  · simp only [load_and_query, topIndices, List.length_map, List.length_take]
    exact Nat.min_le_left _ _
  · exact hrevSorted.sublist (List.take_sublist _ _)
  · intro j hj hnot i hi
    have hjL : j ∈ (argsort n score).reverse := by
      have hmem : j ∈ List.range n := List.mem_range.mpr hj
      exact (((argsort n score).reverse_perm.trans hperm).mem_iff).mpr hmem
    have hsplit :
        List.take k ((argsort n score).reverse) ++
          List.drop k ((argsort n score).reverse) = (argsort n score).reverse :=
      List.take_append_drop k _
    have hjdrop : j ∈ List.drop k ((argsort n score).reverse) := by
      rcases List.mem_append.mp (by rw [hsplit]; exact hjL) with h | h
      · exact absurd h hnot
      · exact h
    have hpw : List.Pairwise (fun a b => score b ≤ score a)
        (List.take k ((argsort n score).reverse) ++
          List.drop k ((argsort n score).reverse)) := by
      rw [hsplit]; exact hrevSorted
    exact (List.pairwise_append.mp hpw).2.2 i hi j hjdrop

theorem load_and_query_rerank_witness :
    (load_and_query 3 (fun i => i) (fun i => [5, 1, 3].getD i 0) 2).length ≤ 2 ∧
    ([5, 1, 3].getD 1 0 : Nat) ≤ [5, 1, 3].getD 0 0 := by
  refine ⟨(load_and_query_rerank_spec 3 (fun i => i)
    (fun i => [5, 1, 3].getD i 0) 2).1, ?_⟩
  exact (load_and_query_rerank_spec 3 (fun i => i)
    (fun i => [5, 1, 3].getD i 0) 2).2.2 1 (by decide) (by decide) 0 (by decide)

/-- C3: `process_query` routes every question to exactly one path, as a
function of the recognized intent dict: a `数据库` key forces the
text-to-SQL branch; with no `数据库` key, an intent naming at least one of
the seven API tools is handled by (exactly) one of the two tool-execution
branches; the RAG branch is taken precisely for the empty intent, and the
SQL branch precisely for a non-empty intent with the `数据库` key.  As
`process_query_route` is a function into the four-way `RoutePath`, no
intent is ever handled by two branches. -/
theorem process_query_routes_exclusively (intent : Dict) :
    (hasKey intent "数据库".data = true →
      process_query_route intent = .sqlQuery) ∧
    (hasKey intent "数据库".data = false →
      (∃ t ∈ ApiAgent.apiToolNames, hasKey intent t = true) →
      process_query_route intent = .toolDependencyCall ∨
        process_query_route intent = .toolExecution) ∧
    (process_query_route intent = .ragAnswer ↔ intent = []) ∧
    (process_query_route intent = .sqlQuery ↔
      intent ≠ [] ∧ hasKey intent "数据库".data = true) := by
  rcases intent with _ | ⟨hd, tl⟩
  · refine ⟨?_, ?_, ?_, ?_⟩
    · intro h; cases h
    · rintro _ ⟨t, _, ht⟩; cases ht
    · simp [process_query_route]
    · simp [process_query_route]
  · refine ⟨?_, ?_, ?_, ?_⟩
    · intro h
      simp [process_query_route, h]
    · intro h _
      by_cases h2 : hasKey (hd :: tl) "工具依赖调用".data
      · left; simp [process_query_route, h, h2]
      · right; simp [process_query_route, h, h2]
    · constructor
      · intro h
        by_cases h1 : hasKey (hd :: tl) "数据库".data
        · simp [process_query_route, h1] at h
        · by_cases h2 : hasKey (hd :: tl) "工具依赖调用".data
          · simp [process_query_route, h1, h2] at h
          · simp [process_query_route, h1, h2] at h
      · intro h; cases h
    · constructor
      · intro h
        refine ⟨by simp, ?_⟩
        by_cases h1 : hasKey (hd :: tl) "数据库".data
        · exact h1
        · by_cases h2 : hasKey (hd :: tl) "工具依赖调用".data
          · simp [process_query_route, h1, h2] at h
          · simp [process_query_route, h1, h2] at h
      · rintro ⟨-, h1⟩
        simp [process_query_route, h1]

theorem process_query_routes_witness :
    process_query_route [("汇率服务".data, JVal.obj [])] = .toolDependencyCall ∨
      process_query_route [("汇率服务".data, JVal.obj [])] = .toolExecution := by
  refine (process_query_routes_exclusively
    [("汇率服务".data, JVal.obj [])]).2.1 (by rfl) ?_
  exact ⟨"汇率服务".data, by simp [ApiAgent.apiToolNames, ApiAgent.api_tools_mapping],
    by rfl⟩

end MultiDocsRag.MainApp

namespace MultiDocsRag.ApiAgent

/-- C5: whenever the intent-recognition request fails, or the reply content
parses as JSON neither directly nor from its first ```json code block,
`recognize_intent_by_api` returns the rule-based result for the same
question (the embedding is a total function, so no exception escapes: every
failure is caught and answered with the fallback). -/
theorem recognize_intent_by_api_falls_back (cm : PyStr)
    (parseJson : PyStr → Option JVal) (q : PyStr) (resp : Except PyStr PyStr)
    (h : (∃ m, resp = .error m) ∨
      ∃ c, resp = .ok c ∧ parseJson (stripJsonFence c) = none ∧
        ∀ b ∈ findallBetween "```json".data "```".data (stripJsonFence c),
          parseJson (pyStrip b) = none) :
    recognize_intent_by_api cm parseJson q resp =
      .obj (recognize_intent_by_rule cm q) := by
  rcases h with ⟨m, rfl⟩ | ⟨c, rfl, hp, hb⟩
  · rfl
  · show (match parseJson (stripJsonFence c) with
      | some j => j
      | none =>
        match findallBetween "```json".data "```".data (stripJsonFence c) with
        | block :: _ =>
          match parseJson (pyStrip block) with
          | some j => j
          | none => .obj (recognize_intent_by_rule cm q)
        | [] => .obj (recognize_intent_by_rule cm q)) =
      .obj (recognize_intent_by_rule cm q)
    rw [hp]
    cases hfb : findallBetween "```json".data "```".data (stripJsonFence c) with
    | nil => rfl
    | cons b bs =>
      have hpb := hb b (by rw [hfb]; exact List.mem_cons_self b bs)
      show (match parseJson (pyStrip b) with
        | some j => j
        | none => JVal.obj (recognize_intent_by_rule cm q)) =
        JVal.obj (recognize_intent_by_rule cm q)
      rw [hpb]

theorem recognize_intent_by_api_falls_back_witness :
    recognize_intent_by_api "2025-10".data (fun _ => none) "你好".data
        (.error "timeout".data) =
      .obj (recognize_intent_by_rule "2025-10".data "你好".data) :=
  recognize_intent_by_api_falls_back "2025-10".data (fun _ => none) "你好".data
    (.error "timeout".data) (Or.inl ⟨"timeout".data, rfl⟩)

/-- C10: database routing takes priority in the rule-based recognizer.  For
every question containing at least one keyword of one of the three database
tables, `recognize_intent_by_rule` returns exactly `{'查询工具': '数据库'}`
— and does so for every extraction method `ext`, so no API-tool matching or
parameter extraction influences the result. -/
theorem rule_database_priority (ext : PyStr → PyStr → Dict) (q : PyStr)
    (h : ∃ p ∈ database_keywords, ∃ kw ∈ p.2, listContainsSub kw q = true) :
    recognize_intent_by_rule_with ext q =
      [("查询工具".data, JVal.str "数据库".data)] := by
  obtain ⟨p, hp, kw, hkw, hsub⟩ := h
  have hmemf : p ∈ database_keywords.filter
      (fun p => p.2.any (fun kw => listContainsSub kw q)) :=
    List.mem_filter.mpr ⟨hp, List.any_eq_true.mpr ⟨kw, hkw, hsub⟩⟩
  have hmemq : p.1 ∈ databaseQueries q := List.mem_map_of_mem Prod.fst hmemf
  have hne : (databaseQueries q).isEmpty = false := by
    cases hq : databaseQueries q with
    | nil => rw [hq] at hmemq; cases hmemq
    | cons a l => rfl
  unfold recognize_intent_by_rule_with
  rw [hne]
  rfl

theorem rule_database_priority_witness :
    recognize_intent_by_rule_with (fun _ _ => []) "查询交易流水".data =
      [("查询工具".data, JVal.str "数据库".data)] :=
  rule_database_priority (fun _ _ => []) "查询交易流水".data (by decide)

/-- C9: `LocalTools.calculator` is a total function of the expression and
the `eval` oracle (modelling `eval` over the `math` module with empty
builtins; `except ZeroDivisionError` and `except Exception` cover every
oracle outcome).  The result either carries an `error` key — the whitelist
failure, the zero-division message, or the generic failure message — or
carries `result` equal to the value `eval` computed for the sanitised
(whitelist-checked, `math.`-prefixed) expression; one of the two always
holds. -/
theorem calculator_total_spec (evalOracle : PyStr → EvalOutcome) (expr : PyStr) :
    (fullMatchClass calculatorCharClass (applyCalcReplacements expr) = false →
      calculator evalOracle expr =
        [("expression".data, JVal.str (applyCalcReplacements expr)),
         ("error".data, JVal.str "表达式包含不安全字符".data)]) ∧
    (∀ v ty, fullMatchClass calculatorCharClass (applyCalcReplacements expr) = true →
      evalOracle (mathifyExpr (applyCalcReplacements expr)) = .ok v ty →
      (calculator evalOracle expr).lookup "result".data = some v ∧
        (calculator evalOracle expr).lookup "error".data = none) ∧
    (fullMatchClass calculatorCharClass (applyCalcReplacements expr) = true →
      evalOracle (mathifyExpr (applyCalcReplacements expr)) = .zeroDiv →
      (calculator evalOracle expr).lookup "error".data =
        some (JVal.str "除零错误".data)) ∧
    (∀ m, fullMatchClass calculatorCharClass (applyCalcReplacements expr) = true →
      evalOracle (mathifyExpr (applyCalcReplacements expr)) = .exc m →
      (calculator evalOracle expr).lookup "error".data =
        some (JVal.str ("计算错误: ".data ++ m))) ∧
    ((∃ m, (calculator evalOracle expr).lookup "error".data = some m) ∨
      ∃ v, (calculator evalOracle expr).lookup "result".data = some v) := by
  refine ⟨?_, ?_, ?_, ?_, ?_⟩
  · intro hbad
    simp only [calculator, hbad, Bool.not_false, if_true]
  · intro v ty hok hev
    simp only [calculator, hok, hev, Bool.not_true, Bool.false_eq_true, if_false]
    exact ⟨rfl, rfl⟩
  · intro hok hev
    simp only [calculator, hok, hev, Bool.not_true, Bool.false_eq_true, if_false]
    rfl
  · intro m hok hev
    simp only [calculator, hok, hev, Bool.not_true, Bool.false_eq_true, if_false]
    rfl
  · by_cases hs : fullMatchClass calculatorCharClass (applyCalcReplacements expr)
    · cases hev : evalOracle (mathifyExpr (applyCalcReplacements expr)) with
      | ok v ty =>
        right
        refine ⟨v, ?_⟩
        simp only [calculator, hs, hev, Bool.not_true, Bool.false_eq_true, if_false]
        rfl
      | zeroDiv =>
        left
        refine ⟨JVal.str "除零错误".data, ?_⟩
        simp only [calculator, hs, hev, Bool.not_true, Bool.false_eq_true, if_false]
        rfl
      | exc m =>
        left
        refine ⟨JVal.str ("计算错误: ".data ++ m), ?_⟩
        simp only [calculator, hs, hev, Bool.not_true, Bool.false_eq_true, if_false]
        rfl
    · left
      refine ⟨JVal.str "表达式包含不安全字符".data, ?_⟩
      simp only [calculator, Bool.eq_false_iff.mpr hs, Bool.not_false, if_true]
      rfl

theorem calculator_total_spec_witness :
    (calculator (fun _ => .ok (JVal.num 7) "int".data) "3+4".data).lookup
        "result".data = some (JVal.num 7) ∧
      (calculator (fun _ => .ok (JVal.num 7) "int".data) "3+4".data).lookup
        "error".data = none :=
  (calculator_total_spec (fun _ => .ok (JVal.num 7) "int".data) "3+4".data).2.1
    (JVal.num 7) "int".data (by decide) rfl

end MultiDocsRag.ApiAgent

namespace MultiDocsRag.ApiAgent

theorem pyUpper_of_supported {s : PyStr} (h : s ∈ SUPPORTED_CURRENCIES) :
    pyUpper s = s := by
  fin_cases h <;> rfl

/-- C6: with `TEST_MODE = True`, every tool-service call whose parameters
pass validation returns the payload of that service's `_get_mock_data`, a
dict whose `status` is `'success'` — and it does so for **every** network
oracle `net`, i.e. no network request influences the result.  For the
exchange-rate service, `convertedAmount` is `round(amount * rate, 2)` with
the rate looked up in the fixed `exchange_rates` table, and the rate
defaults to `1.0` for every pair absent from the table (last conjunct). -/
theorem test_mode_mock_spec :
    (∀ (net : Net) (c m : PyStr),
      creditCard_get_monthly_bill net (some c) (some m) =
        creditCardMockData "/api/credit-card/monthly-bill".data
          (creditCardParams (some c) (some m)) ∧
      (creditCard_get_monthly_bill net (some c) (some m)).lookup "status".data =
        some (JVal.str "success".data)) ∧
    (∀ (net : Net) (now fc tc : PyStr) (amt : ℚ),
      pyUpper fc ∈ SUPPORTED_CURRENCIES → pyUpper tc ∈ SUPPORTED_CURRENCIES →
      get_exchange_rate net now fc tc amt =
        exchangeRateMockData now "/api/exchange-rate".data
          (exchangeParams fc tc amt) ∧
      (get_exchange_rate net now fc tc amt).lookup "status".data =
        some (JVal.str "success".data) ∧
      (get_exchange_rate net now fc tc amt).lookup "convertedAmount".data =
        some (JVal.num (round2 (amt * rateLookup (pyUpper fc) (pyUpper tc))))) ∧
    (∀ (net : Net) (h m ut : PyStr), ut ∈ utilityTypeS →
      utility_get_monthly_bill net (some h) (some m) ut =
        utilityMockData "/api/utility-bill/monthly-bill".data
          (utilityParams (some h) (some m) ut) ∧
      (utility_get_monthly_bill net (some h) (some m) ut).lookup "status".data =
        some (JVal.str "success".data)) ∧
    (∀ (net : Net) (cid at' : PyStr), at' ∈ assetTypeS →
      get_user_assets net (some cid) at' =
        userAssetsMockData "/api/user/assets".data
          (userAssetsParams (some cid) at') ∧
      (get_user_assets net (some cid) at').lookup "status".data =
        some (JVal.str "success".data)) ∧
    (∀ (net : Net) (now expire mid oid : PyStr) (amt : Option ℚ),
      create_payment_order net now expire (some mid) (some oid) amt =
        paymentMockData now expire "/api/qr/create-payment-order".data
          (paymentParams (some mid) (some oid) amt) ∧
      (create_payment_order net now expire (some mid) (some oid) amt).lookup
          "status".data = some (JVal.str "success".data)) ∧
    (∀ a b : PyStr, exchange_rates.lookup (a, b) = none → rateLookup a b = 1) := by
  refine ⟨?_, ?_, ?_, ?_, ?_, ?_⟩
  · intro net c m
    exact ⟨rfl, rfl⟩
  · intro net now fc tc amt hf ht
    have hcf : SUPPORTED_CURRENCIES.contains (pyUpper fc) = true :=
      List.elem_eq_true_of_mem hf
    have hct : SUPPORTED_CURRENCIES.contains (pyUpper tc) = true :=
      List.elem_eq_true_of_mem ht
    have hmain : get_exchange_rate net now fc tc amt =
        exchangeRateMockData now "/api/exchange-rate".data
          (exchangeParams fc tc amt) := by
      simp only [get_exchange_rate, hcf, hct, Bool.not_true, Bool.false_eq_true,
        if_false]
      rfl
    refine ⟨hmain, ?_, ?_⟩
    · rw [hmain]
      rfl
    · rw [hmain, ← pyUpper_of_supported hf, ← pyUpper_of_supported ht]
      rfl
  · intro net h m ut hut
    fin_cases hut <;> exact ⟨rfl, rfl⟩
  · intro net cid at' hat
    fin_cases hat <;> exact ⟨rfl, rfl⟩
  · intro net now expire mid oid amt
    exact ⟨rfl, rfl⟩
  · intro a b h
    unfold rateLookup
    rw [h]
    rfl

theorem test_mode_mock_spec_witness :
    (creditCard_get_monthly_bill (fun _ _ => .error "down".data)
        (some "6211111111111111".data) (some "2025-09".data)).lookup
        "status".data = some (JVal.str "success".data) ∧
    (get_exchange_rate (fun _ _ => .error "down".data) "2025-10-12T00:00:00".data
        "USD".data "CNY".data 100).lookup "convertedAmount".data =
      some (JVal.num (round2 (100 * rateLookup (pyUpper "USD".data)
        (pyUpper "CNY".data)))) ∧
    rateLookup "USD".data "JPY".data = 1 := by
  refine ⟨(test_mode_mock_spec.1 (fun _ _ => .error "down".data)
    "6211111111111111".data "2025-09".data).2, ?_, ?_⟩
  · exact (test_mode_mock_spec.2.1 (fun _ _ => .error "down".data)
      "2025-10-12T00:00:00".data "USD".data "CNY".data 100
      (by decide) (by decide)).2.2
  · exact test_mode_mock_spec.2.2.2.2.2 "USD".data "JPY".data rfl

end MultiDocsRag.ApiAgent

namespace MultiDocsRag.ApiAgent

theorem lookup_toolTable_of_not_mem {β : Type} (g : PyStr → ApiTool → Option β)
    (tbl : List (PyStr × ApiTool)) (name : PyStr)
    (h : ∀ p ∈ tbl, p.1 ≠ name) :
    (tbl.filterMap (fun p => (g p.1 p.2).map (fun v => (p.1, v)))).lookup name =
      none := by
  induction tbl with
  | nil => rfl
  | cons hd rest ih =>
    have hhd : hd.1 ≠ name := h hd (List.mem_cons_self hd rest)
    have hrest : ∀ p ∈ rest, p.1 ≠ name := fun p hp =>
      h p (List.mem_cons_of_mem hd hp)
    cases hg : g hd.1 hd.2 with
    | none =>
      simp only [List.filterMap_cons, hg, Option.map_none']
      exact ih hrest
    | some v =>
      simp only [List.filterMap_cons, hg, Option.map_some']
      simp only [List.lookup, beq_eq_false_iff_ne.mpr (Ne.symm hhd)]
      exact ih hrest

theorem lookup_toolTable_of_mem {β : Type} (g : PyStr → ApiTool → Option β)
    (tbl : List (PyStr × ApiTool)) (name : PyStr) (t : ApiTool)
    (hnd : (tbl.map Prod.fst).Nodup) (hmem : (name, t) ∈ tbl) :
    (tbl.filterMap (fun p => (g p.1 p.2).map (fun v => (p.1, v)))).lookup name =
      g name t := by
  induction tbl with
  | nil => cases hmem
  | cons hd rest ih =>
    have hnd' : (rest.map Prod.fst).Nodup := (List.nodup_cons.mp hnd).2
    rcases List.mem_cons.mp hmem with heq | hmem'
    · cases heq
      have hnot : name ∉ rest.map Prod.fst := (List.nodup_cons.mp hnd).1
      have hnone : ∀ p ∈ rest, p.1 ≠ name := fun p hp h2 =>
        hnot (h2 ▸ List.mem_map_of_mem Prod.fst hp)
      cases hg : g name t with
      | none =>
        simp only [List.filterMap_cons, hg, Option.map_none']
        exact lookup_toolTable_of_not_mem g rest name hnone
      | some v =>
        simp only [List.filterMap_cons, hg, Option.map_some']
        simp [List.lookup]
    · have hhd : hd.1 ≠ name := by
        intro h2
        have hm : ((name, t) : PyStr × ApiTool).1 ∈ rest.map Prod.fst :=
          List.mem_map_of_mem Prod.fst hmem'
        exact (List.nodup_cons.mp hnd).1 (h2 ▸ hm)
      cases hg : g hd.1 hd.2 with
      | none =>
        simp only [List.filterMap_cons, hg, Option.map_none']
        exact ih hnd' hmem'
      | some v =>
        simp only [List.filterMap_cons, hg, Option.map_some']
        simp only [List.lookup, beq_eq_false_iff_ne.mpr (Ne.symm hhd)]
        exact ih hnd' hmem'

theorem rule_with_no_db (ext : PyStr → PyStr → Dict) (q : PyStr)
    (hdb : databaseQueries q = []) :
    recognize_intent_by_rule_with ext q = recognizedTools ext q := by
  unfold recognize_intent_by_rule_with
  rw [hdb]
  simp only [List.isEmpty_nil, Bool.not_true, Bool.false_eq_true, if_false]
  by_cases h1 : (recognizedTools ext q).length = 1
  · simp [h1]
  · by_cases h2 : (recognizedTools ext q).length > 1
    · simp [h1, h2]
    · have h0 : (recognizedTools ext q).length = 0 := by omega
      have heq := List.length_eq_zero.mp h0
      simp [h1, h2, heq]

theorem toolEntry_isSome_iff (ext : PyStr → PyStr → Dict) (q name : PyStr)
    (t : ApiTool) :
    (toolEntry ext q name t).isSome = true ↔
      (t.keywords.any fun kw => listContainsSub kw q) = true ∧
        (t.required_params.filter fun p => !hasKey (ext q name) p).isEmpty =
          true := by
  by_cases h1 : (t.keywords.any fun kw => listContainsSub kw q) = true
  · by_cases h2 :
        (t.required_params.filter fun p => !hasKey (ext q name) p).isEmpty = true
    · simp [toolEntry, h1, h2]
    · simp [toolEntry, h1, h2]
  · simp [toolEntry, h1]

theorem toolEntry_of_hit (ext : PyStr → PyStr → Dict) (q name : PyStr)
    (t : ApiTool) (h1 : (t.keywords.any fun kw => listContainsSub kw q) = true)
    (h2 : (t.required_params.filter fun p => !hasKey (ext q name) p).isEmpty =
      true) :
    toolEntry ext q name t = some (JVal.obj (ext q name)) := by
  simp [toolEntry, h1, h2]

theorem api_tools_keys_nodup : (api_tools_mapping.map Prod.fst).Nodup := by
  decide

/-- C7 (amended): restricted to questions containing no database-table
keyword (the database pre-check of lines 204–211 otherwise returns
`{'查询工具': '数据库'}` before any API matching).  Under that restriction:
a tool is in the returned mapping iff one of its keywords occurs in the
question and extraction yields every required parameter (part 1, with
part 2 adding that the tool maps to exactly its extracted parameters); the
mapping contains nothing but such tools (part 3); and it is empty when no
tool matches (part 4). -/
theorem rule_api_tools_spec (cm q : PyStr) (hdb : databaseQueries q = []) :
    (∀ name t, (name, t) ∈ api_tools_mapping →
      (hasKey (recognize_intent_by_rule cm q) name = true ↔
        (t.keywords.any fun kw => listContainsSub kw q) = true ∧
          (t.required_params.filter fun p =>
            !hasKey (extract_parameters cm q name) p).isEmpty = true)) ∧
    (∀ name t, (name, t) ∈ api_tools_mapping →
      (t.keywords.any fun kw => listContainsSub kw q) = true →
      (t.required_params.filter fun p =>
        !hasKey (extract_parameters cm q name) p).isEmpty = true →
      (recognize_intent_by_rule cm q).lookup name =
        some (JVal.obj (extract_parameters cm q name))) ∧
    (∀ p ∈ recognize_intent_by_rule cm q, ∃ t,
      (p.1, t) ∈ api_tools_mapping ∧
        (t.keywords.any fun kw => listContainsSub kw q) = true ∧
        (t.required_params.filter fun r =>
          !hasKey (extract_parameters cm q p.1) r).isEmpty = true ∧
        p.2 = JVal.obj (extract_parameters cm q p.1)) ∧
    ((∀ name t, (name, t) ∈ api_tools_mapping →
        ¬((t.keywords.any fun kw => listContainsSub kw q) = true ∧
          (t.required_params.filter fun p =>
            !hasKey (extract_parameters cm q name) p).isEmpty = true)) →
      recognize_intent_by_rule cm q = []) := by
  have hr : recognize_intent_by_rule cm q =
      recognizedTools (extract_parameters cm) q :=
    rule_with_no_db (extract_parameters cm) q hdb
  have hlk : ∀ name t, (name, t) ∈ api_tools_mapping →
      (recognizedTools (extract_parameters cm) q).lookup name =
        toolEntry (extract_parameters cm) q name t := fun name t hmem =>
    lookup_toolTable_of_mem (toolEntry (extract_parameters cm) q)
      api_tools_mapping name t api_tools_keys_nodup hmem
  refine ⟨?_, ?_, ?_, ?_⟩
  · intro name t hmem
    unfold hasKey
    rw [hr, hlk name t hmem]
    exact toolEntry_isSome_iff (extract_parameters cm) q name t
  · intro name t hmem h1 h2
    rw [hr, hlk name t hmem]
    exact toolEntry_of_hit (extract_parameters cm) q name t h1 h2
  · intro p hp
    rw [hr] at hp
    obtain ⟨a, ha, hfa⟩ := List.mem_filterMap.mp hp
    cases hte : toolEntry (extract_parameters cm) q a.1 a.2 with
    | none =>
      rw [hte] at hfa
      cases hfa
    | some v =>
      rw [hte] at hfa
      have hpv : (a.1, v) = p := by simpa using hfa
      obtain ⟨h1, h2⟩ :=
        (toolEntry_isSome_iff (extract_parameters cm) q a.1 a.2).mp
          (by rw [hte]; rfl)
      have hv : v = JVal.obj (extract_parameters cm q a.1) := by
        have h3 := toolEntry_of_hit (extract_parameters cm) q a.1 a.2 h1 h2
        rw [hte] at h3
        exact Option.some.inj h3
      cases hpv
      refine ⟨a.2, by simpa using ha, h1, h2, hv⟩
  · intro hnone
    rw [hr]
    unfold recognizedTools
    rw [List.filterMap_eq_nil_iff]
    intro a ha
    have hab : (a.1, a.2) ∈ api_tools_mapping := by simpa using ha
    have hno := hnone a.1 a.2 hab
    cases hte : toolEntry (extract_parameters cm) q a.1 a.2 with
    | none => simp [hte]
    | some v =>
      exact absurd ((toolEntry_isSome_iff (extract_parameters cm) q a.1 a.2).mp
        (by rw [hte]; rfl)) hno

theorem rule_api_tools_spec_witness :
    (recognize_intent_by_rule "2025-10".data "100美元兑换日元等于多少".data).lookup
        "汇率服务".data =
      some (JVal.obj (extract_parameters "2025-10".data
        "100美元兑换日元等于多少".data "汇率服务".data)) :=
  (rule_api_tools_spec "2025-10".data "100美元兑换日元等于多少".data rfl).2.1
    "汇率服务".data exchangeRateTool (by decide) (by decide) (by decide)

/-- C7 counterexample to the claim as stated: the question
`查询交易流水，100美元兑换日元等于多少` contains keywords of the exchange-rate
tool and its parameter extraction yields both required parameters, yet
`recognize_intent_by_rule` does not recognize the tool — the question also
contains the database keyword `交易流水`, so the database branch returns
`{'查询工具': '数据库'}` first.  This refutes the claimed "if and only if"
at an explicit input. -/
theorem rule_api_tools_claim_counterexample :
    ("汇率服务".data, exchangeRateTool) ∈ api_tools_mapping ∧
    (exchangeRateTool.keywords.any fun kw =>
      listContainsSub kw "查询交易流水，100美元兑换日元等于多少".data) = true ∧
    (exchangeRateTool.required_params.filter fun p =>
      !hasKey (extract_parameters "2025-10".data
        "查询交易流水，100美元兑换日元等于多少".data "汇率服务".data) p).isEmpty =
      true ∧
    (recognize_intent_by_rule "2025-10".data
      "查询交易流水，100美元兑换日元等于多少".data).lookup "汇率服务".data = none ∧
    recognize_intent_by_rule "2025-10".data
        "查询交易流水，100美元兑换日元等于多少".data =
      [("查询工具".data, JVal.str "数据库".data)] :=
  ⟨by decide, by decide, by decide, rfl, rfl⟩

end MultiDocsRag.ApiAgent
